import Mathlib

/-!
Verification of the OAuth2 token-lifecycle core of the Frisbii Transform
MCP server (`src/frisbii_transform_mcp/server.py`).

The Python core is embedded shallowly:
  * a JSON token dict becomes `TokenRecord` (the three fields the core
    reads, each optional, mirroring key presence in the dict);
  * the token cache file becomes `FileState` (missing, empty, unparseable,
    or holding a parsed record);
  * environment variables become `Config` with `Option String` fields and
    Python truthiness (`truthy`);
  * the nondeterministic outside world (token endpoint, file writes and
    deletes) becomes an explicit `OAuthEnv` oracle threaded through the
    functions, with counts of token-endpoint calls made;
  * Python exceptions raised to the caller become explicit result
    constructors (`HeaderResult.authError`, `AdminResult.err`); functions
    that catch all their own exceptions are total.

Timestamps (`datetime.now().timestamp()`, `expires_at`) are modelled as
integers; the claims only use linear arithmetic on them.
-/

namespace FrisbiiTransform

/-- A cached OAuth2 token record, mirroring the JSON dict the Python code
passes around.  Each field is `none` when the corresponding key is absent
from the dict. -/
structure TokenRecord where
  access_token : Option String
  expires_at : Option Int
  expires_in : Option Int
  deriving DecidableEq, Repr

/-- Python truthiness of the token dict: a dict is truthy iff non-empty. -/
def TokenRecord.isTruthy (t : TokenRecord) : Bool :=
  t.access_token.isSome || t.expires_at.isSome || t.expires_in.isSome

/-- The state of the token cache file (`TOKEN_STORAGE_FILE`). -/
inductive FileState where
  | missing
  | empty
  | corrupt
  | stored (t : TokenRecord)
  deriving DecidableEq, Repr

/-- Process configuration read from environment variables; `none` models an
unset variable. -/
structure Config where
  api_key : Option String
  legal_entity_id : Option String
  oauth2_client_id : Option String
  oauth2_client_secret : Option String
  deriving DecidableEq, Repr

/-- Python truthiness of `os.getenv(...)`: unset or empty string is falsy. -/
def truthy : Option String → Bool
  | none => false
  | some s => !s.isEmpty

/-- `auth_method` (server.py lines 40-48): module-level resolution of the
authentication scheme, `some "oauth2"`, `some "bearer"` or `none`. -/
def auth_method (cfg : Config) : Option String :=
  if truthy cfg.oauth2_client_id && truthy cfg.oauth2_client_secret then some "oauth2"
  else if truthy cfg.api_key then some "bearer"
  else none

/-- `save_token` (lines 55-62): writes the record; any exception is caught
and logged, so on a failed write the file is left as it was and no error
propagates (the function is total). `saveOk` is the oracle for whether the
write raised. -/
def save_token (tok : TokenRecord) (saveOk : Bool) (file : FileState) : FileState :=
  if saveOk then .stored tok else file

/-- `load_token` (lines 64-74): returns the parsed record, or `none` when
the file is missing, empty or unparseable (all exceptions are caught). -/
def load_token : FileState → Option TokenRecord
  | .missing => none
  | .empty => none
  | .corrupt => none
  | .stored t => some t

/-- Python truthiness of an `Optional[Dict]`: `None` and the empty dict are
falsy. -/
def pyTruthy : Option TokenRecord → Bool
  | none => false
  | some t => t.isTruthy

/-- `is_token_valid` (lines 76-83): false when the record is falsy or lacks
the `expires_at` key; otherwise `now < expires_at - 60`. -/
def is_token_valid (token : Option TokenRecord) (now : Int) : Bool :=
  if !pyTruthy token || (token.bind TokenRecord.expires_at).isNone then false
  else now < (token.bind TokenRecord.expires_at).getD 0 - 60

/-- Lines 112-114 of `get_oauth2_token`: add `expires_at := now + expires_in`
to a freshly fetched token when the grant gave only a relative lifetime. -/
def fill_expires (now : Int) (raw : TokenRecord) : TokenRecord :=
  if raw.expires_at.isNone && raw.expires_in.isSome then
    { raw with expires_at := some (now + raw.expires_in.getD 0) }
  else raw

/-- What the token endpoint does when `fetch_token` is called: return a
grant response, or raise (network error, non-success status, malformed
response — all surface as an exception from `fetch_token`). -/
inductive FetchOutcome where
  | success (t : TokenRecord)
  | failure
  deriving DecidableEq, Repr

/-- Oracle for the outside world during one call: the token endpoint's
behaviour, and whether a file write / file delete succeeds. -/
structure OAuthEnv where
  fetch : FetchOutcome
  saveOk : Bool
  removeOk : Bool
  deriving DecidableEq, Repr

/-- Result of `get_oauth2_token`: the returned `Optional[str]`, the file
state afterwards, and how many token-endpoint calls were made. -/
structure TokenResult where
  access_token : Option String
  file : FileState
  fetchCalls : Nat
  deriving DecidableEq, Repr

/-- `get_oauth2_token` (lines 86-121): return the cached access token when
the cached record is truthy and valid; otherwise fetch a new grant, fill in
`expires_at`, save, and return its access token; on any fetch exception
catch it and return `none`. -/
def get_oauth2_token (cfg : Config) (file : FileState) (now : Int) (env : OAuthEnv) :
    TokenResult :=
  if !truthy cfg.oauth2_client_id || !truthy cfg.oauth2_client_secret then
    ⟨none, file, 0⟩
  else
    let token := load_token file
    if pyTruthy token && is_token_valid token now then
      ⟨token.bind TokenRecord.access_token, file, 0⟩
    else
      match env.fetch with
      | .failure => ⟨none, file, 1⟩
      | .success raw =>
        let tok := fill_expires now raw
        ⟨tok.access_token, save_token tok env.saveOk file, 1⟩

/-- The header mapping built by `get_client` (lines 123-148). -/
structure Headers where
  content_type : String
  accept : String
  legal_entity : Option String
  auth_header : Option String
  deriving DecidableEq, Repr

/-- The headers `get_client` assembles before choosing an authentication
method: content type, accept, and the optional legal-entity selector. -/
def base_headers (cfg : Config) : Headers :=
  { content_type := "application/json"
    accept := "application/json"
    legal_entity := if truthy cfg.legal_entity_id then cfg.legal_entity_id else none
    auth_header := none }

/-- `get_client` either returns a configured client (modelled by its
headers) or raises `Exception("Authentication failed: ...")`. -/
inductive HeaderResult where
  | ok (headers : Headers)
  | authError (msg : String)
  deriving DecidableEq, Repr

/-- Result of `get_client`: headers or the raised authentication error,
plus the file state afterwards and the number of token-endpoint calls. -/
structure ClientOutcome where
  result : HeaderResult
  file : FileState
  fetchCalls : Nat
  deriving DecidableEq, Repr

/-- `get_client` (lines 123-148): build headers, then attach Authorization
according to `auth_method`, raising when no token / no credentials.  Line
137 guards with `if access_token:`, Python truthiness of the
`Optional[str]`, so `None` and the empty string both raise. -/
def get_client (cfg : Config) (file : FileState) (now : Int) (env : OAuthEnv) :
    ClientOutcome :=
  let base := base_headers cfg
  if auth_method cfg = some "oauth2" then
    let r := get_oauth2_token cfg file now env
    if truthy r.access_token then
      ⟨.ok { base with auth_header := some ("Bearer " ++ r.access_token.getD "") },
        r.file, r.fetchCalls⟩
    else
      ⟨.authError "Authentication failed: Unable to obtain OAuth2 token", r.file, r.fetchCalls⟩
  else if auth_method cfg = some "bearer" ∧ truthy cfg.api_key then
    ⟨.ok { base with auth_header := some ("Bearer " ++ cfg.api_key.getD "") }, file, 0⟩
  else
    ⟨.authError "Authentication failed: No valid credentials configured", file, 0⟩

/-- One API Operation as seen by the core: `with get_client() as client:`
followed by the business HTTP call.  If `get_client` raises, the business
call is never attempted. -/
inductive ApiOutcome where
  | businessCall (headers : Headers)
  | failed (msg : String)
  deriving DecidableEq, Repr

/-- An API Operation reaches its business HTTP call exactly when
`get_client` returned headers. -/
def api_operation (cfg : Config) (file : FileState) (now : Int) (env : OAuthEnv) :
    ApiOutcome × FileState × Nat :=
  match get_client cfg file now env with
  | ⟨.ok h, f, n⟩ => (.businessCall h, f, n)
  | ⟨.authError m, f, n⟩ => (.failed m, f, n)

/-- The structured dict returned by the administrative tools:
`{"success": true, "message": ...}` or `{"success": false, "error": ...}`. -/
inductive AdminResult where
  | ok (message : String)
  | err (error : String)
  deriving DecidableEq, Repr

/-- The `success` field of an administrative result. -/
def AdminResult.success : AdminResult → Bool
  | .ok _ => true
  | .err _ => false

/-- `oauth2_clear_token` (lines 1061-1084): remove the token file when it
exists (`removeOk` is the oracle for `os.remove` raising; the exception is
caught and reported as a structured failure). -/
def oauth2_clear_token (file : FileState) (removeOk : Bool) : AdminResult × FileState :=
  match file with
  | .missing => (.ok "No OAuth2 token file found", .missing)
  | f =>
    if removeOk then (.ok "OAuth2 token cleared successfully", .missing)
    else (.err "Failed to clear OAuth2 token", f)

/-- `oauth2_refresh_token` (lines 1024-1059): with OAuth2 credentials
configured, delete the token file if present, then acquire a fresh token;
a delete failure is caught and reported as a structured failure.  Line
1045 guards the result with `if access_token:`, Python truthiness, so
`None` and the empty string both report the structured failure. -/
def oauth2_refresh_token (cfg : Config) (file : FileState) (now : Int) (env : OAuthEnv) :
    AdminResult × FileState × Nat :=
  if !truthy cfg.oauth2_client_id || !truthy cfg.oauth2_client_secret then
    (.err "OAuth2 credentials not configured", file, 0)
  else if file = .missing ∨ env.removeOk then
    let r := get_oauth2_token cfg .missing now env
    if truthy r.access_token then
      (.ok "OAuth2 token refreshed successfully", r.file, r.fetchCalls)
    else
      (.err "Failed to obtain new OAuth2 token", r.file, r.fetchCalls)
  else
    (.err "Failed to refresh OAuth2 token", file, 0)

/-! ## Helper lemmas -/

/-- The module resolves the scheme to OAuth2 exactly when both client
identifier and secret are truthy. -/
theorem auth_method_eq_oauth2 (cfg : Config) :
    auth_method cfg = some "oauth2" ↔
      (truthy cfg.oauth2_client_id && truthy cfg.oauth2_client_secret) = true := by
  unfold auth_method
  split
  · simp [*]
  · split <;> simp_all

/-- `fill_expires` never changes the access token. -/
theorem fill_expires_access_token (now : Int) (raw : TokenRecord) :
    (fill_expires now raw).access_token = raw.access_token := by
  unfold fill_expires
  split <;> rfl

/-- Reduction of `truthy` on an absent value. -/
theorem truthy_none_eq : truthy none = false := rfl

/-- Reduction of `truthy` on a present string. -/
theorem truthy_some_eq (s : String) : truthy (some s) = !s.isEmpty := rfl

/-- A record that passes validation is in particular truthy. -/
theorem pyTruthy_of_valid {token : Option TokenRecord} {now : Int}
    (h : is_token_valid token now = true) : pyTruthy token = true := by
  cases hp : pyTruthy token with
  | true => rfl
  | false => simp [is_token_valid, hp] at h

/-- Under the OAuth2 scheme, `get_client` makes exactly the token-endpoint
calls that `get_oauth2_token` makes. -/
theorem get_client_fetchCalls (cfg : Config) (file : FileState) (now : Int) (env : OAuthEnv)
    (hc : auth_method cfg = some "oauth2") :
    (get_client cfg file now env).fetchCalls =
      (get_oauth2_token cfg file now env).fetchCalls := by
  cases h : truthy (get_oauth2_token cfg file now env).access_token <;>
    simp [get_client, hc, h]

/-! ## Claims -/

/-- Claim C1: `is_token_valid` returns false when the record is absent or
lacks `expires_at`; for a record with `expires_at = e` it returns false
whenever `e - 60 ≤ now` and returns true exactly when `now < e - 60`. -/
theorem is_token_valid_spec (token : Option TokenRecord) (now : Int) :
    (token = none → is_token_valid token now = false) ∧
    (∀ t : TokenRecord, token = some t → t.expires_at = none →
      is_token_valid token now = false) ∧
    (∀ (t : TokenRecord) (e : Int), token = some t → t.expires_at = some e →
      e - 60 ≤ now → is_token_valid token now = false) ∧
    (∀ (t : TokenRecord) (e : Int), token = some t → t.expires_at = some e →
      (is_token_valid token now = true ↔ now < e - 60)) := by
  refine ⟨?_, ?_, ?_, ?_⟩
  · rintro rfl
    rfl
  · rintro t rfl he
    simp [is_token_valid, he]
  · rintro t e rfl he hle
    simp [is_token_valid, pyTruthy, TokenRecord.isTruthy, he]
    omega
  · rintro t e rfl he
    simp [is_token_valid, pyTruthy, TokenRecord.isTruthy, he]

/-- Witness for C1 at concrete inputs, including the boundary
`expires_at = now + 60`. -/
theorem is_token_valid_spec_witness :
    is_token_valid none 0 = false ∧
    is_token_valid (some ⟨some "tok", none, none⟩) 0 = false ∧
    is_token_valid (some ⟨some "tok", some 60, none⟩) 0 = false ∧
    (is_token_valid (some ⟨some "tok", some 61, none⟩) 0 = true ↔ (0 : Int) < 61 - 60) := by
  refine ⟨(is_token_valid_spec none 0).1 rfl,
    (is_token_valid_spec _ 0).2.1 _ rfl rfl,
    (is_token_valid_spec _ 0).2.2.1 _ 60 rfl rfl (by decide),
    (is_token_valid_spec _ 0).2.2.2 _ 61 rfl rfl⟩

/-- Claim C3: scheme resolution precedence OAuth2 > StaticBearer > None:
both OAuth2 credentials truthy gives `"oauth2"` regardless of the static
key; otherwise a truthy static key gives `"bearer"`; otherwise `none`. -/
theorem auth_method_precedence (cfg : Config) :
    (truthy cfg.oauth2_client_id = true → truthy cfg.oauth2_client_secret = true →
      auth_method cfg = some "oauth2") ∧
    ((truthy cfg.oauth2_client_id = false ∨ truthy cfg.oauth2_client_secret = false) →
      truthy cfg.api_key = true → auth_method cfg = some "bearer") ∧
    ((truthy cfg.oauth2_client_id = false ∨ truthy cfg.oauth2_client_secret = false) →
      truthy cfg.api_key = false → auth_method cfg = none) := by
  refine ⟨?_, ?_, ?_⟩
  · intro h1 h2
    simp [auth_method, h1, h2]
  · intro h1 h2
    rcases h1 with h | h <;> simp [auth_method, h, h2]
  · intro h1 h2
    rcases h1 with h | h <;> simp [auth_method, h, h2]

/-- Witness for C3: OAuth2 wins over a configured static key; a static key
alone gives bearer; nothing configured gives none. -/
theorem auth_method_precedence_witness :
    auth_method ⟨some "key", none, some "id", some "sec"⟩ = some "oauth2" ∧
    auth_method ⟨some "key", none, none, some "sec"⟩ = some "bearer" ∧
    auth_method ⟨none, none, some "id", none⟩ = none := by
  refine ⟨(auth_method_precedence _).1 rfl rfl,
    (auth_method_precedence _).2.1 (Or.inl rfl) rfl,
    (auth_method_precedence _).2.2 (Or.inr rfl) rfl⟩

/-- Claim C5: `load_token` is total and returns `none` (absent, not an
error) whenever the token file is missing, empty or unparseable. -/
theorem load_token_absent (f : FileState)
    (h : f = .missing ∨ f = .empty ∨ f = .corrupt) :
    load_token f = none := by
  rcases h with rfl | rfl | rfl <;> rfl

/-- Witness for C5 at each of the three degenerate file states. -/
theorem load_token_absent_witness :
    load_token .missing = none ∧ load_token .empty = none ∧ load_token .corrupt = none :=
  ⟨load_token_absent _ (Or.inl rfl), load_token_absent _ (Or.inr (Or.inl rfl)),
    load_token_absent _ (Or.inr (Or.inr rfl))⟩

/-- Claim C7: with neither OAuth2 credentials nor a static key configured
the resolver classifies the scheme as `none` without failing, and every
header build raises the authentication error with zero token-endpoint
calls, never reaching the business call. -/
theorem none_scheme_spec (cfg : Config) (file : FileState) (now : Int) (env : OAuthEnv)
    (h1 : (truthy cfg.oauth2_client_id && truthy cfg.oauth2_client_secret) = false)
    (h2 : truthy cfg.api_key = false) :
    auth_method cfg = none ∧
    (get_client cfg file now env).result =
      .authError "Authentication failed: No valid credentials configured" ∧
    (get_client cfg file now env).fetchCalls = 0 ∧
    (api_operation cfg file now env).1 =
      .failed "Authentication failed: No valid credentials configured" := by
  have hm : auth_method cfg = none := by
    simp [auth_method, h1, h2]
  refine ⟨hm, ?_, ?_, ?_⟩ <;> simp [api_operation, get_client, hm, h2]

/-- Witness for C7 on the fully unconfigured process. -/
theorem none_scheme_spec_witness :
    auth_method ⟨none, none, none, none⟩ = none ∧
    (get_client ⟨none, none, none, none⟩ .missing 0 ⟨.failure, true, true⟩).result =
      .authError "Authentication failed: No valid credentials configured" ∧
    (get_client ⟨none, none, none, none⟩ .missing 0 ⟨.failure, true, true⟩).fetchCalls = 0 ∧
    (api_operation ⟨none, none, none, none⟩ .missing 0 ⟨.failure, true, true⟩).1 =
      .failed "Authentication failed: No valid credentials configured" :=
  none_scheme_spec ⟨none, none, none, none⟩ .missing 0 ⟨.failure, true, true⟩ rfl rfl

/-- Claim C4: when the cached token is unusable and the token exchange
fails, `get_oauth2_token` swallows the exception and returns `None`
(leaving the file untouched), and the API Operation fails with the
header builder's authentication error without reaching its business
HTTP call. -/
theorem oauth2_exchange_failure_contained (cfg : Config) (file : FileState) (now : Int)
    (env : OAuthEnv)
    (hc : auth_method cfg = some "oauth2")
    (hinv : is_token_valid (load_token file) now = false)
    (hf : env.fetch = .failure) :
    get_oauth2_token cfg file now env = ⟨none, file, 1⟩ ∧
    (api_operation cfg file now env).1 =
      .failed "Authentication failed: Unable to obtain OAuth2 token" ∧
    ∀ h, (api_operation cfg file now env).1 ≠ .businessCall h := by
  have hcc := (auth_method_eq_oauth2 cfg).mp hc
  rw [Bool.and_eq_true] at hcc
  obtain ⟨h1, h2⟩ := hcc
  have htok : get_oauth2_token cfg file now env = ⟨none, file, 1⟩ := by
    simp [get_oauth2_token, h1, h2, hinv, hf]
  refine ⟨htok, ?_, ?_⟩ <;> simp [api_operation, get_client, hc, htok, truthy_none_eq]

/-- Witness for C4: expired cached token, token endpoint down. -/
theorem oauth2_exchange_failure_contained_witness :
    get_oauth2_token ⟨none, none, some "id", some "sec"⟩
        (.stored ⟨some "old", some 10, none⟩) 100 ⟨.failure, true, true⟩ =
      ⟨none, .stored ⟨some "old", some 10, none⟩, 1⟩ ∧
    (api_operation ⟨none, none, some "id", some "sec"⟩
        (.stored ⟨some "old", some 10, none⟩) 100 ⟨.failure, true, true⟩).1 =
      .failed "Authentication failed: Unable to obtain OAuth2 token" ∧
    ∀ h, (api_operation ⟨none, none, some "id", some "sec"⟩
        (.stored ⟨some "old", some 10, none⟩) 100 ⟨.failure, true, true⟩).1 ≠
      .businessCall h :=
  oauth2_exchange_failure_contained ⟨none, none, some "id", some "sec"⟩
    (.stored ⟨some "old", some 10, none⟩) 100 ⟨.failure, true, true⟩
    (by decide) (by decide) rfl

/-- Claim C6: a failed write in `save_token` is absorbed (the file is left
as it was and nothing is raised), and the caller of the acquirer still
receives the freshly acquired access token even when persistence failed. -/
theorem save_failure_nonfatal (cfg : Config) (file : FileState) (now : Int) (env : OAuthEnv)
    (raw : TokenRecord) (s : String)
    (hc : auth_method cfg = some "oauth2")
    (hinv : is_token_valid (load_token file) now = false)
    (hf : env.fetch = .success raw)
    (hs : raw.access_token = some s) :
    (get_oauth2_token cfg file now env).access_token = some s ∧
    (env.saveOk = false → (get_oauth2_token cfg file now env).file = file) ∧
    (∀ tok : TokenRecord, save_token tok false file = file) := by
  have hcc := (auth_method_eq_oauth2 cfg).mp hc
  rw [Bool.and_eq_true] at hcc
  obtain ⟨h1, h2⟩ := hcc
  refine ⟨?_, ?_, fun tok => rfl⟩
  · simp [get_oauth2_token, h1, h2, hinv, hf, fill_expires_access_token, hs]
  · intro hsv
    simp [get_oauth2_token, h1, h2, hinv, hf, save_token, hsv]

/-- Witness for C6: acquisition succeeds, persistence fails, the fresh
token is still returned and the file is unchanged. -/
theorem save_failure_nonfatal_witness :
    (get_oauth2_token ⟨none, none, some "id", some "sec"⟩ .missing 100
        ⟨.success ⟨some "new", none, some 3600⟩, false, true⟩).access_token = some "new" ∧
    (false = false → (get_oauth2_token ⟨none, none, some "id", some "sec"⟩ .missing 100
        ⟨.success ⟨some "new", none, some 3600⟩, false, true⟩).file = .missing) ∧
    (∀ tok : TokenRecord, save_token tok false .missing = .missing) :=
  save_failure_nonfatal ⟨none, none, some "id", some "sec"⟩ .missing 100
    ⟨.success ⟨some "new", none, some 3600⟩, false, true⟩ ⟨some "new", none, some 3600⟩ "new"
    (by decide) (by decide) rfl rfl

/-- Claim C2: under the OAuth2 scheme a token acquisition happens exactly
when the cached token is invalid; with an expired stored token one
acquisition is made, the Authorization header carries the newly acquired
access token (a token string, hence non-empty — Python's `if access_token:`
truthiness at line 137) and the new record is in storage afterwards; with a
stored valid token no acquisition is made and the cached access token is
used. -/
theorem oauth2_header_cache_behaviour :
    (∀ (cfg : Config) (file : FileState) (now : Int) (env : OAuthEnv),
      auth_method cfg = some "oauth2" →
      ((get_client cfg file now env).fetchCalls = 0 ↔
        is_token_valid (load_token file) now = true)) ∧
    (∀ (cfg : Config) (now past : Int) (t raw : TokenRecord) (s : String) (env : OAuthEnv),
      auth_method cfg = some "oauth2" →
      t.expires_at = some past → past ≤ now →
      env.fetch = .success raw → raw.access_token = some s → s.isEmpty = false →
      env.saveOk = true →
      (get_client cfg (.stored t) now env).fetchCalls = 1 ∧
      (get_client cfg (.stored t) now env).result =
        .ok { base_headers cfg with auth_header := some ("Bearer " ++ s) } ∧
      load_token (get_client cfg (.stored t) now env).file = some (fill_expires now raw) ∧
      (fill_expires now raw).access_token = some s) ∧
    (∀ (cfg : Config) (now : Int) (t : TokenRecord) (s : String) (env : OAuthEnv),
      auth_method cfg = some "oauth2" →
      t.expires_at = some (now + 3600) → t.access_token = some s → s.isEmpty = false →
      (get_client cfg (.stored t) now env).fetchCalls = 0 ∧
      (get_client cfg (.stored t) now env).result =
        .ok { base_headers cfg with auth_header := some ("Bearer " ++ s) }) := by
  refine ⟨?_, ?_, ?_⟩
  · intro cfg file now env hc
    have hcc := (auth_method_eq_oauth2 cfg).mp hc
    rw [Bool.and_eq_true] at hcc
    obtain ⟨h1, h2⟩ := hcc
    rw [get_client_fetchCalls cfg file now env hc]
    cases hv : is_token_valid (load_token file) now with
    | true =>
      simp [get_oauth2_token, h1, h2, hv, pyTruthy_of_valid hv]
    | false =>
      simp only [get_oauth2_token, h1, h2, hv, Bool.not_true, Bool.false_or,
        Bool.and_false, if_false, Bool.or_self, if_neg]
      cases env.fetch <;> simp
  · intro cfg now past t raw s env hc hpast hle hf hs hse hsave
    have hcc := (auth_method_eq_oauth2 cfg).mp hc
    rw [Bool.and_eq_true] at hcc
    obtain ⟨h1, h2⟩ := hcc
    have hinv : is_token_valid (load_token (.stored t)) now = false := by
      simp [load_token, is_token_valid, pyTruthy, TokenRecord.isTruthy, hpast]
      omega
    have htok : get_oauth2_token cfg (.stored t) now env =
        ⟨some s, .stored (fill_expires now raw), 1⟩ := by
      simp [get_oauth2_token, h1, h2, hinv, hf, save_token, hsave,
        fill_expires_access_token, hs]
    refine ⟨?_, ?_, ?_, ?_⟩ <;>
      simp [get_client, hc, htok, load_token, fill_expires_access_token, hs,
        truthy_some_eq, hse]
  · intro cfg now t s env hc hexp hs hse
    have hcc := (auth_method_eq_oauth2 cfg).mp hc
    rw [Bool.and_eq_true] at hcc
    obtain ⟨h1, h2⟩ := hcc
    have hvalid : is_token_valid (some t) now = true := by
      simp [is_token_valid, pyTruthy, TokenRecord.isTruthy, hexp]
      omega
    have hpt : pyTruthy (some t) = true := by
      simp [pyTruthy, TokenRecord.isTruthy, hexp]
    have htok : get_oauth2_token cfg (.stored t) now env = ⟨some s, .stored t, 0⟩ := by
      simp [get_oauth2_token, h1, h2, load_token, hvalid, hpt, hs]
    refine ⟨?_, ?_⟩ <;> simp [get_client, hc, htok, truthy_some_eq, hse]

/-- Witness for C2: an expired stored token triggers one acquisition whose
token lands in the header and the store; a fresh stored token is reused
with zero acquisitions. -/
theorem oauth2_header_cache_behaviour_witness :
    ((get_client ⟨none, none, some "id", some "sec"⟩ (.stored ⟨some "old", some 50, none⟩)
        100 ⟨.success ⟨some "new", none, some 3600⟩, true, true⟩).fetchCalls = 0 ↔
      is_token_valid (load_token (.stored ⟨some "old", some 50, none⟩)) 100 = true) ∧
    ((get_client ⟨none, none, some "id", some "sec"⟩ (.stored ⟨some "old", some 50, none⟩)
        100 ⟨.success ⟨some "new", none, some 3600⟩, true, true⟩).fetchCalls = 1 ∧
      (get_client ⟨none, none, some "id", some "sec"⟩ (.stored ⟨some "old", some 50, none⟩)
          100 ⟨.success ⟨some "new", none, some 3600⟩, true, true⟩).result =
        .ok { base_headers ⟨none, none, some "id", some "sec"⟩ with
              auth_header := some ("Bearer " ++ "new") } ∧
      load_token (get_client ⟨none, none, some "id", some "sec"⟩
          (.stored ⟨some "old", some 50, none⟩)
          100 ⟨.success ⟨some "new", none, some 3600⟩, true, true⟩).file =
        some (fill_expires 100 ⟨some "new", none, some 3600⟩) ∧
      (fill_expires 100 ⟨some "new", none, some 3600⟩).access_token = some "new") ∧
    ((get_client ⟨none, none, some "id", some "sec"⟩ (.stored ⟨some "cached", some 3600, none⟩)
        0 ⟨.failure, true, true⟩).fetchCalls = 0 ∧
      (get_client ⟨none, none, some "id", some "sec"⟩ (.stored ⟨some "cached", some 3600, none⟩)
          0 ⟨.failure, true, true⟩).result =
        .ok { base_headers ⟨none, none, some "id", some "sec"⟩ with
              auth_header := some ("Bearer " ++ "cached") }) :=
  ⟨oauth2_header_cache_behaviour.1 ⟨none, none, some "id", some "sec"⟩
      (.stored ⟨some "old", some 50, none⟩) 100
      ⟨.success ⟨some "new", none, some 3600⟩, true, true⟩ (by decide),
    oauth2_header_cache_behaviour.2.1 ⟨none, none, some "id", some "sec"⟩ 100 50
      ⟨some "old", some 50, none⟩ ⟨some "new", none, some 3600⟩ "new"
      ⟨.success ⟨some "new", none, some 3600⟩, true, true⟩
      (by decide) rfl (by decide) rfl rfl (by decide) rfl,
    oauth2_header_cache_behaviour.2.2 ⟨none, none, some "id", some "sec"⟩ 0
      ⟨some "cached", some 3600, none⟩ "cached" ⟨.failure, true, true⟩
      (by decide) (by decide) rfl (by decide)⟩

/-- Claim C8: clearing with no token file succeeds; clearing with a file
removes it so a subsequent load returns absent; a delete failure is caught
and reported; the operation always returns a structured ok/err result. -/
theorem oauth2_clear_token_spec :
    (∀ rOk : Bool,
      oauth2_clear_token .missing rOk = (.ok "No OAuth2 token file found", .missing)) ∧
    (∀ t : TokenRecord,
      oauth2_clear_token (.stored t) true =
        (.ok "OAuth2 token cleared successfully", .missing) ∧
      load_token (oauth2_clear_token (.stored t) true).2 = none) ∧
    (∀ t : TokenRecord,
      oauth2_clear_token (.stored t) false =
        (.err "Failed to clear OAuth2 token", .stored t)) ∧
    (∀ (f : FileState) (rOk : Bool),
      (∃ m, (oauth2_clear_token f rOk).1 = .ok m) ∨
      (∃ m, (oauth2_clear_token f rOk).1 = .err m)) := by
  refine ⟨fun rOk => rfl, fun t => ⟨rfl, rfl⟩, fun t => rfl, ?_⟩
  intro f rOk
  cases f <;> cases rOk <;> simp [oauth2_clear_token]

/-- Witness for C8 at concrete file states. -/
theorem oauth2_clear_token_spec_witness :
    oauth2_clear_token .missing true = (.ok "No OAuth2 token file found", .missing) ∧
    oauth2_clear_token (.stored ⟨some "tok", some 5, none⟩) true =
      (.ok "OAuth2 token cleared successfully", .missing) ∧
    load_token (oauth2_clear_token (.stored ⟨some "tok", some 5, none⟩) true).2 = none ∧
    oauth2_clear_token (.stored ⟨some "tok", some 5, none⟩) false =
      (.err "Failed to clear OAuth2 token", .stored ⟨some "tok", some 5, none⟩) :=
  ⟨oauth2_clear_token_spec.1 true, (oauth2_clear_token_spec.2.1 _).1,
    (oauth2_clear_token_spec.2.1 _).2, oauth2_clear_token_spec.2.2.1 _⟩

/-- Claim C9: forced refresh deletes the stored token before acquiring, so
when the exchange then fails it reports a structured failure while the
previously stored record is already gone and not restored. -/
theorem refresh_failure_destroys_store (cfg : Config) (t : TokenRecord) (now : Int)
    (env : OAuthEnv)
    (hc : (truthy cfg.oauth2_client_id && truthy cfg.oauth2_client_secret) = true)
    (hr : env.removeOk = true)
    (hf : env.fetch = .failure) :
    oauth2_refresh_token cfg (.stored t) now env =
      (.err "Failed to obtain new OAuth2 token", .missing, 1) ∧
    (oauth2_refresh_token cfg (.stored t) now env).2.1 ≠ .stored t ∧
    load_token (oauth2_refresh_token cfg (.stored t) now env).2.1 = none := by
  rw [Bool.and_eq_true] at hc
  obtain ⟨h1, h2⟩ := hc
  have htok : get_oauth2_token cfg .missing now env = ⟨none, .missing, 1⟩ := by
    simp [get_oauth2_token, h1, h2, load_token, pyTruthy, hf]
  have hres : oauth2_refresh_token cfg (.stored t) now env =
      (.err "Failed to obtain new OAuth2 token", .missing, 1) := by
    simp [oauth2_refresh_token, h1, h2, hr, htok, truthy_none_eq]
  refine ⟨hres, ?_, ?_⟩ <;> simp [hres, load_token]

/-- Witness for C9: a stored token is destroyed by a refresh whose
acquisition fails. -/
theorem refresh_failure_destroys_store_witness :
    oauth2_refresh_token ⟨none, none, some "id", some "sec"⟩
        (.stored ⟨some "old", some 100, none⟩) 0 ⟨.failure, true, true⟩ =
      (.err "Failed to obtain new OAuth2 token", .missing, 1) ∧
    (oauth2_refresh_token ⟨none, none, some "id", some "sec"⟩
        (.stored ⟨some "old", some 100, none⟩) 0 ⟨.failure, true, true⟩).2.1 ≠
      .stored ⟨some "old", some 100, none⟩ ∧
    load_token (oauth2_refresh_token ⟨none, none, some "id", some "sec"⟩
        (.stored ⟨some "old", some 100, none⟩) 0 ⟨.failure, true, true⟩).2.1 = none :=
  refresh_failure_destroys_store ⟨none, none, some "id", some "sec"⟩
    ⟨some "old", some 100, none⟩ 0 ⟨.failure, true, true⟩ (by decide) rfl rfl

/-- Claim C10: a stored record with a future `expires_at` but no
`access_token` passes validation, so `get_oauth2_token` returns `None`
without calling the token endpoint and the header build fails with the
authentication error. -/
theorem stale_record_blocks_auth (cfg : Config) (now e : Int) (env : OAuthEnv)
    (hc : auth_method cfg = some "oauth2")
    (hfresh : now < e - 60) :
    is_token_valid (some ⟨none, some e, none⟩) now = true ∧
    get_oauth2_token cfg (.stored ⟨none, some e, none⟩) now env =
      ⟨none, .stored ⟨none, some e, none⟩, 0⟩ ∧
    (get_client cfg (.stored ⟨none, some e, none⟩) now env).result =
      .authError "Authentication failed: Unable to obtain OAuth2 token" ∧
    (get_client cfg (.stored ⟨none, some e, none⟩) now env).fetchCalls = 0 := by
  have hcc := (auth_method_eq_oauth2 cfg).mp hc
  rw [Bool.and_eq_true] at hcc
  obtain ⟨h1, h2⟩ := hcc
  have hvalid : is_token_valid (some ⟨none, some e, none⟩) now = true := by
    simp [is_token_valid, pyTruthy, TokenRecord.isTruthy]
    omega
  have htok : get_oauth2_token cfg (.stored ⟨none, some e, none⟩) now env =
      ⟨none, .stored ⟨none, some e, none⟩, 0⟩ := by
    simp [get_oauth2_token, h1, h2, load_token, hvalid, pyTruthy, TokenRecord.isTruthy]
  refine ⟨hvalid, htok, ?_, ?_⟩ <;> simp [get_client, hc, htok, truthy_none_eq]

/-- Witness for C10: an unexpired record lacking the access token blocks
authentication without a token-endpoint call. -/
theorem stale_record_blocks_auth_witness :
    is_token_valid (some ⟨none, some 1000, none⟩) 0 = true ∧
    get_oauth2_token ⟨none, none, some "id", some "sec"⟩
        (.stored ⟨none, some 1000, none⟩) 0 ⟨.failure, true, true⟩ =
      ⟨none, .stored ⟨none, some 1000, none⟩, 0⟩ ∧
    (get_client ⟨none, none, some "id", some "sec"⟩
        (.stored ⟨none, some 1000, none⟩) 0 ⟨.failure, true, true⟩).result =
      .authError "Authentication failed: Unable to obtain OAuth2 token" ∧
    (get_client ⟨none, none, some "id", some "sec"⟩
        (.stored ⟨none, some 1000, none⟩) 0 ⟨.failure, true, true⟩).fetchCalls = 0 :=
  stale_record_blocks_auth ⟨none, none, some "id", some "sec"⟩ 0 1000
    ⟨.failure, true, true⟩ (by decide) (by decide)

end FrisbiiTransform
